import Mathlib

/-!
# Verification of the yield-decline dashboard core (`src/app.py`)

Shallow embedding of the data-processing core of the crop-production dashboard:
the dataset normalizer `load_data` and the yield-decline engine
`calculate_yield_decline`.  Numeric columns are embedded as `ℚ` (the Python
code computes with float64; none of the properties checked here depend on
float rounding artifacts), missing values (`NaN`) as `Option.none`, and the
`Year` column as `ℤ`.
-/

namespace App

/-- One row of the table handed to `calculate_yield_decline`.  The engine reads
only the `Crop`, `State`, `Year` and `Yield` columns of the (possibly
filtered) dataframe it is given, so a table is embedded as a list of rows of
those four columns.  `Yield` is `none` where the dataframe holds `NaN`. -/
structure Row where
  Crop : String
  State : String
  Year : ℤ
  Yield : Option ℚ
deriving DecidableEq

/-- The severity ladder of `calculate_yield_decline` (app.py line 132),
represented as a closed enumeration. -/
inductive Severity where
  | Moderate
  | High
  | Critical
deriving DecidableEq

/-- One output row of the decline report (the dict appended at
app.py lines 133-140). -/
structure DeclineRecord where
  Crop : String
  State : String
  Decline_Percentage : ℚ
  Early_Yield : ℚ
  Recent_Yield : ℚ
  Severity : Severity
deriving DecidableEq

/-- Round-half-to-even to an integer, the rounding used by Python's builtin
`round`. -/
def roundHalfEven (q : ℚ) : ℤ :=
  let f : ℤ := ⌊q⌋
  if q - (f : ℚ) < 1 / 2 then f
  else if (1 : ℚ) / 2 < q - (f : ℚ) then f + 1
  else if f % 2 = 0 then f else f + 1

/-- `round(x, 2)` (app.py lines 136-138). -/
def round2 (q : ℚ) : ℚ :=
  (roundHalfEven (q * 100) : ℚ) / 100

/-- `Series.unique()`: the distinct values of a column in order of first
appearance (app.py lines 116-117). -/
def unique {α : Type} [DecidableEq α] : List α → List α
  | [] => []
  | x :: xs => x :: (unique xs).filter (fun y => decide (y ≠ x))

/-- The iteration order of the two nested `for` loops of
`calculate_yield_decline` (app.py lines 116-117): every crop paired with
every state, crops outermost. -/
def listProd {α β : Type} (cs : List α) (ss : List β) : List (α × β) :=
  cs.flatMap (fun c => ss.map (fun s => (c, s)))

/-- `Series.mean()` over the `Yield` column: `NaN` entries are skipped, and the
mean of an empty/all-`NaN` selection is `NaN` (app.py lines 125-126). -/
def meanYield (rows : List Row) : Option ℚ :=
  let ys := rows.filterMap (fun r => r.Yield)
  if ys.isEmpty then none else some (ys.sum / (ys.length : ℚ))

/-- `df['Year'].max()` — `NaN` (here `none`) on an empty table
(app.py line 108). -/
def maxYear (df : List Row) : Option ℤ :=
  (df.map (fun r => r.Year)).max?

/-- The period window `start_year ≤ Year ≤ current_year` (app.py line 112). -/
def periodOf (df : List Row) (start_year current_year : ℤ) : List Row :=
  df.filter (fun r => decide (start_year ≤ r.Year) && decide (r.Year ≤ current_year))

/-- The per-pair subset `(Crop == crop) & (State == state)`
(app.py lines 118-119). -/
def pairSubset (period : List Row) (c s : String) : List Row :=
  period.filter (fun r => decide (r.Crop = c) && decide (r.State = s))

/-- The body of the nested loops of `calculate_yield_decline`
(app.py lines 118-140): `none` when the pair is skipped (fewer than 2
observations, an undefined mean, a non-positive early mean, or a decline of at
most 10%), otherwise the emitted `DeclineRecord`. -/
def evalPair (period : List Row) (start_year current_year : ℤ) (c s : String) :
    Option DeclineRecord :=
  let subset := pairSubset period c s
  if subset.length < 2 then none
  else
    match meanYield (subset.filter (fun r => decide (r.Year ≤ start_year + 2))),
          meanYield (subset.filter (fun r => decide (current_year - 2 ≤ r.Year))) with
    | some early_years, some recent_years =>
      if 0 < early_years then
        let decline_pct := (early_years - recent_years) / early_years * 100
        if 10 < decline_pct then
          some
            { Crop := c
              State := s
              Decline_Percentage := round2 decline_pct
              Early_Yield := round2 early_years
              Recent_Yield := round2 recent_years
              Severity :=
                if 30 < decline_pct then Severity.Critical
                else if 20 < decline_pct then Severity.High
                else Severity.Moderate }
        else none
      else none
    | _, _ => none

/-- The `decline_list` accumulated by the nested loops of
`calculate_yield_decline` (app.py lines 114-140), in emission order. -/
def declineList (df : List Row) (years : ℤ) : List DeclineRecord :=
  match maxYear df with
  | none => []
  | some current_year =>
    let start_year := current_year - years
    let period_data := periodOf df start_year current_year
    (listProd (unique (period_data.map (fun r => r.Crop)))
        (unique (period_data.map (fun r => r.State)))).filterMap
      (fun cs => evalPair period_data start_year current_year cs.1 cs.2)

/-- Comparison on the stored (rounded) `Decline_Percentage` column, the sort
key of app.py line 143. -/
def pctLE (a b : DeclineRecord) : Prop :=
  a.Decline_Percentage ≤ b.Decline_Percentage

instance : DecidableRel pctLE :=
  fun a b => inferInstanceAs (Decidable (a.Decline_Percentage ≤ b.Decline_Percentage))

instance : IsTotal DeclineRecord pctLE :=
  ⟨fun a b => le_total a.Decline_Percentage b.Decline_Percentage⟩

instance : IsTrans DeclineRecord pctLE :=
  ⟨fun _ _ _ h h' => le_trans h h'⟩

/-- `sort_values('Decline_Percentage', ascending=False)` (app.py line 143).
pandas computes an *ascending* argsort of the key column with the default
`kind='quicksort'` and then reverses the index order
(`pandas.core.sorting.nargsort`).  numpy's quicksort fixes no particular tie
order in general (it is insertion-sort-stable only below its small-array
cutoff), so only two aspects of this model are relied on as properties of
the program: the report is *some* permutation of the emitted records ordered
descending by the key, and on the small concrete reports evaluated in this
file (at most 3 records, well inside numpy's insertion-sort regime) the
model is exact.  The ascending sort is modelled with `List.insertionSort`,
followed by the reversal. -/
def sortDesc (l : List DeclineRecord) : List DeclineRecord :=
  (List.insertionSort pctLE l).reverse

/-- `calculate_yield_decline` (app.py lines 106-146): the decline report for a
table and a window length.  An empty `decline_list` yields the empty report
of line 146. -/
def calculate_yield_decline (df : List Row) (years : ℤ) : List DeclineRecord :=
  let decline_list := declineList df years
  if decline_list.isEmpty then [] else sortDesc decline_list

/-- The rows a `(crop, state)` pair has in the period window of
`calculate_yield_decline df years` — the subset whose length the
minimum-observation gate of app.py line 121 tests. -/
def pairRows (df : List Row) (years : ℤ) (c s : String) : List Row :=
  match maxYear df with
  | none => []
  | some current_year => pairSubset (periodOf df (current_year - years) current_year) c s

/-! ## The dataset normalizer `load_data` (app.py lines 74-96)

A raw row is one row of the csv as delivered by `pandas.read_csv`: text
fields are strings or `NaN` (`none`), `Year` is the raw text (or `NaN`),
`Area`/`Production` are parsed numbers or `NaN`. -/

/-- One raw input row as delivered by `read_csv`. -/
structure RawRow where
  State : Option String
  District : Option String
  Crop : Option String
  Season : Option String
  Year : Option String
  Area : Option ℚ
  Production : Option ℚ
deriving DecidableEq

/-- One row of the canonical table produced by `load_data`.  `Crop` is a plain
string because rows with a missing crop are dropped (app.py line 94). -/
structure Record where
  State : Option String
  District : Option String
  Crop : String
  Season : String
  Year : ℤ
  Area : Option ℚ
  Production : Option ℚ
  Yield : Option ℚ
deriving DecidableEq

/-- `str.strip()`: remove leading and trailing whitespace. -/
def pyStrip (s : String) : String :=
  ⟨((s.toList.dropWhile Char.isWhitespace).reverse.dropWhile Char.isWhitespace).reverse⟩

/-- `int(text)` for the digit strings that occur in a year column: all-digit
text parses to the number it denotes, anything else raises (is `none`). -/
def parseIntText (cs : List Char) : Option ℤ :=
  if cs ≠ [] ∧ cs.all Char.isDigit then
    some ((cs.foldl (fun n ch => 10 * n + (ch.toNat - 48)) 0 : ℕ) : ℤ)
  else none

/-- `str(x).split('-')[0]` converted with `int(...)` (app.py line 82): the text
before the first `'-'`, parsed as a decimal integer; a missing value becomes
the string `"nan"`, which does not parse. -/
def parseYearField (s : Option String) : Option ℤ :=
  match s with
  | none => none
  | some str => parseIntText (str.toList.takeWhile (fun ch => ch ≠ '-'))

/-- `Production / Area` with `±inf` (from `Area == 0`) replaced by `NaN`
(app.py lines 85-86); `NaN` operands propagate to `NaN`. -/
def mkYield (area production : Option ℚ) : Option ℚ :=
  match area, production with
  | some a, some p => if a = 0 then none else some (p / a)
  | _, _ => none

/-- All-or-nothing column conversion: `Series.astype(int)` raises on the first
unconvertible value, so one failure aborts the whole operation. -/
def mapOpt {α β : Type} (f : α → Option β) : List α → Option (List β)
  | [] => some []
  | a :: l =>
    match f a with
    | none => none
    | some b =>
      match mapOpt f l with
      | none => none
      | some bs => some (b :: bs)

/-- The per-row part of the `Year` column conversion (app.py line 82): the row
together with its parsed year, or `none` where `astype(int)` would raise. -/
def yearStep (rw : RawRow) : Option (RawRow × ℤ) :=
  (parseYearField rw.Year).map (fun y => (rw, y))

/-- The per-row part of yield derivation, text cleaning and
`dropna(subset=['Crop'])` (app.py lines 84-94): `none` exactly when the raw
crop is missing (`NaN`), in which case the row is dropped. -/
def buildRecord (p : RawRow × ℤ) : Option Record :=
  match p.1.Crop with
  | none => none
  | some c =>
    some
      { State := p.1.State.map pyStrip
        District := p.1.District.map pyStrip
        Crop := pyStrip c
        Season := pyStrip (p.1.Season.getD "")
        Year := p.2
        Area := p.1.Area
        Production := p.1.Production
        Yield := mkYield p.1.Area p.1.Production }

/-- `load_data` (app.py lines 74-96) on already-csv-parsed raw rows: convert
the `Year` column (aborting on any unparseable year), derive `Yield`, clean
the text fields, and drop rows whose `Crop` is missing. -/
def load_data (raws : List RawRow) : Option (List Record) :=
  (mapOpt yearStep raws).map (fun rows => rows.filterMap buildRecord)

/-! ## Concrete inputs used by individual claims -/

/-- A one-pair table whose early mean is 10000 and whose recent mean is the
argument, so that the decline percentage is `(10000 - r) / 100`. -/
def bTab (r : ℚ) : List Row :=
  [⟨"C", "S", 2016, some 10000⟩, ⟨"C", "S", 2020, some r⟩]

/-- The end-to-end scenario table of the spec: crop Rice, region Gujarat, one
row per year 2016-2020 with yields 2.0, 2.2, 1.8, 1.4, 1.2. -/
def riceTable : List Row :=
  [⟨"Rice", "Gujarat", 2016, some 2⟩, ⟨"Rice", "Gujarat", 2017, some (11 / 5)⟩,
   ⟨"Rice", "Gujarat", 2018, some (9 / 5)⟩, ⟨"Rice", "Gujarat", 2019, some (7 / 5)⟩,
   ⟨"Rice", "Gujarat", 2020, some (6 / 5)⟩]

/-- A small nonempty table used by the negative-window claim. -/
def c6Table : List Row :=
  [⟨"C", "S", 2016, some 100⟩, ⟨"C", "S", 2020, some 50⟩]

/-- A pair with exactly 2 rows in the window of `calculate_yield_decline _ 4`,
only one of which has a defined yield. -/
def oneYieldTable : List Row :=
  [⟨"C", "S", 2018, some 2⟩, ⟨"C", "S", 2020, none⟩]

/-- Raw input whose second row has an unparseable year. -/
def c4raws : List RawRow :=
  [⟨some "S", some "D", some "Wheat", some "K", some "2016", some 10, some 25⟩,
   ⟨some "S", some "D", some "Rice", some "K", some "19xx", some 5, some 10⟩]

/-- Raw input whose only row has a missing (`NaN`) year. -/
def c4wraws : List RawRow :=
  [⟨some "S", some "D", some "Maize", some "K", none, some 2, some 4⟩]

/-- The row of `c4wraws`. -/
def c4wbad : RawRow := ⟨some "S", some "D", some "Maize", some "K", none, some 2, some 4⟩

/-- Raw input whose only row has a whitespace-only crop. -/
def c5raws : List RawRow :=
  [⟨some "S", some "D", some "   ", some "K", some "2016", some 1, some 2⟩]

/-- The canonical record `load_data` produces for `c5raws`. -/
def c5rec : Record := ⟨some "S", some "D", "", "K", 2016, some 1, some 2, some 2⟩

/-- Raw input with one crop-less row and one ordinary row. -/
def c5wraws : List RawRow :=
  [⟨some "A", some "B", none, some "K", some "2017", some 1, some 1⟩,
   ⟨some "A", some "B", some "Rice", some "K", some "2017", some 2, some 4⟩]

/-- The canonical record `load_data` produces for `c5wraws`. -/
def c5wrec : Record := ⟨some "A", some "B", "Rice", "K", 2017, some 2, some 4, some 2⟩

/-- Raw input with an `Area = 10, Production = 25` row and an
`Area = 0, Production = 5` row. -/
def c8raws : List RawRow :=
  [⟨some "S", some "D", some "Wheat", some "K", some "2016", some 10, some 25⟩,
   ⟨some "S", some "D", some "Wheat", some "K", some "2020", some 0, some 5⟩]

/-- First canonical record of `load_data c8raws`. -/
def c8rec1 : Record := ⟨some "S", some "D", "Wheat", "K", 2016, some 10, some 25, some (5 / 2)⟩

/-- Second canonical record of `load_data c8raws`. -/
def c8rec2 : Record := ⟨some "S", some "D", "Wheat", "K", 2020, some 0, some 5, none⟩

/-! ## Helper lemmas about the loader -/

theorem mapOpt_eq_none {α β : Type} {f : α → Option β} {l : List α} {x : α}
    (hx : x ∈ l) (hf : f x = none) : mapOpt f l = none := by
  induction l with
  | nil => cases hx
  | cons a l ih =>
    rw [mapOpt]
    rcases List.mem_cons.1 hx with rfl | hx'
    · rw [hf]
    · cases h : f a with
      | none => rfl
      | some b => rw [ih hx']

theorem mapOpt_yearStep_fst {raws : List RawRow} {rows : List (RawRow × ℤ)}
    (h : mapOpt yearStep raws = some rows) : rows.map Prod.fst = raws := by
  induction raws generalizing rows with
  | nil =>
    rw [mapOpt] at h
    cases h
    rfl
  | cons a l ih =>
    rw [mapOpt] at h
    cases hf : yearStep a with
    | none => rw [hf] at h; cases h
    | some p =>
      rw [hf] at h
      cases hm : mapOpt yearStep l with
      | none => rw [hm] at h; cases h
      | some ps =>
        rw [hm] at h
        cases h
        have hp : p.1 = a := by
          obtain ⟨y, hy, hpy⟩ := Option.map_eq_some'.1 hf
          rw [← hpy]
        simp [hp, ih hm]

theorem filterMap_buildRecord_length (rows : List (RawRow × ℤ)) :
    (rows.filterMap buildRecord).length =
      (rows.filter (fun p => p.1.Crop.isSome)).length := by
  induction rows with
  | nil => rfl
  | cons p l ih =>
    cases hc : p.1.Crop with
    | none => simp [List.filterMap_cons, List.filter_cons, buildRecord, hc, ih]
    | some c => simp [List.filterMap_cons, List.filter_cons, buildRecord, hc, ih]

theorem load_data_some {raws : List RawRow} {recs : List Record}
    (h : load_data raws = some recs) :
    ∃ rows, mapOpt yearStep raws = some rows ∧ recs = rows.filterMap buildRecord := by
  rw [load_data] at h
  cases hm : mapOpt yearStep raws with
  | none => rw [hm] at h; cases h
  | some rows =>
    rw [hm] at h
    simp only [Option.map_some'] at h
    exact ⟨rows, rfl, (Option.some.inj h).symm⟩

theorem load_data_yield {raws : List RawRow} {recs : List Record}
    (h : load_data raws = some recs) :
    ∀ rec ∈ recs, rec.Yield = mkYield rec.Area rec.Production := by
  obtain ⟨rows, hm, rfl⟩ := load_data_some h
  intro rec hrec
  obtain ⟨p, hp, hb⟩ := List.mem_filterMap.1 hrec
  cases hc : p.1.Crop with
  | none =>
    have hnone : buildRecord p = none := by simp [buildRecord, hc]
    rw [hnone] at hb
    exact Option.noConfusion hb
  | some c =>
    simp only [buildRecord, hc] at hb
    obtain rfl := Option.some.inj hb
    rfl

/-! ## Claims about the loader -/

/-- C4 (counterexample): a raw input whose second row has the unparseable year
`"19xx"` makes `load_data` fail as a whole (the column-wide `astype(int)`
raises) instead of completing with that row excluded. -/
theorem load_data_aborts_on_bad_year : load_data c4raws = none := by decide

/-- C4 (amended): for every raw input in which some row's year field does not
parse as an integer, `load_data` aborts the whole load operation (the
column-wide `astype(int)` conversion raises), rather than excluding only the
offending row. -/
theorem load_data_bad_year_aborts_all (raws : List RawRow)
    (h : ∃ rw ∈ raws, parseYearField rw.Year = none) :
    load_data raws = none := by
  obtain ⟨rw, hmem, hpy⟩ := h
  have hf : yearStep rw = none := by simp [yearStep, hpy]
  rw [load_data, mapOpt_eq_none hmem hf]
  rfl

/-- C4 (witness): the amended claim applied to a concrete raw input whose only
row has a missing year. -/
theorem load_data_bad_year_aborts_all_witness : load_data c4wraws = none :=
  load_data_bad_year_aborts_all c4wraws ⟨c4wbad, by decide, by decide⟩

unseal Rat.mul Rat.inv Rat.add Rat.sub in
/-- C5 (counterexample): a raw row whose crop is the whitespace-only string
`"   "` is not dropped by `load_data`; it survives with the empty crop `""`,
so the canonical table can contain an empty crop field. -/
theorem load_data_keeps_whitespace_crop :
    load_data c5raws = some [c5rec] ∧ c5rec.Crop = "" := by decide

/-- C5 (amended): `load_data` drops exactly the rows whose crop is undefined
(missing): every row with a present crop — even one that trims to the empty
string — yields a canonical record. -/
theorem load_data_drops_only_missing_crop (raws : List RawRow) (recs : List Record)
    (h : load_data raws = some recs) :
    recs.length = (raws.filter (fun rw => rw.Crop.isSome)).length := by
  obtain ⟨rows, hm, rfl⟩ := load_data_some h
  rw [filterMap_buildRecord_length]
  have hfst := mapOpt_yearStep_fst hm
  calc (rows.filter (fun p => p.1.Crop.isSome)).length
      = ((rows.map Prod.fst).filter (fun rw => rw.Crop.isSome)).length := by
        simp only [List.filter_map, List.length_map]
        rfl
    _ = (raws.filter (fun rw => rw.Crop.isSome)).length := by rw [hfst]

unseal Rat.mul Rat.inv Rat.add Rat.sub in
/-- C5 (witness): the amended claim applied to a concrete input with one
crop-less row and one ordinary row. -/
theorem load_data_drops_only_missing_crop_witness :
    ([c5wrec] : List Record).length = (c5wraws.filter (fun rw => rw.Crop.isSome)).length :=
  load_data_drops_only_missing_crop c5wraws [c5wrec] (by decide)

/-- C8: for every record of the canonical table, the derived yield equals
`Production / Area` when `Area > 0`, and is undefined (`none`) when
`Area = 0`. -/
theorem yield_from_production_and_area (raws : List RawRow) (recs : List Record)
    (h : load_data raws = some recs) :
    ∀ rec ∈ recs,
      (∀ a p, rec.Area = some a → rec.Production = some p → 0 < a →
          rec.Yield = some (p / a)) ∧
      (rec.Area = some 0 → rec.Yield = none) := by
  intro rec hrec
  have hY := load_data_yield h rec hrec
  constructor
  · intro a p ha hp hpos
    rw [hY, ha, hp]
    simp only [mkYield]
    rw [if_neg hpos.ne']
  · intro ha
    rw [hY, ha]
    cases hp : rec.Production with
    | none => simp [mkYield]
    | some p => simp [mkYield]

unseal Rat.mul Rat.inv Rat.add Rat.sub in
/-- C8 (witness): on a concrete load, `Area = 10, Production = 25` derives
yield `25 / 10 = 2.5`, and `Area = 0, Production = 5` derives an undefined
yield. -/
theorem yield_from_production_and_area_witness :
    c8rec1.Yield = some ((25 : ℚ) / 10) ∧ c8rec2.Yield = none :=
  ⟨(yield_from_production_and_area c8raws [c8rec1, c8rec2] (by decide) c8rec1
      (by decide)).1 10 25 (by decide) (by decide) (by norm_num),
   (yield_from_production_and_area c8raws [c8rec1, c8rec2] (by decide) c8rec2
      (by decide)).2 (by decide)⟩

/-! ## Claims about the decline engine: concrete scenarios -/

unseal Rat.mul Rat.inv Rat.add Rat.sub in
/-- C1: the boundary bands of the severity classification, exercised through
`calculate_yield_decline` on one-pair tables whose exact decline percentages
are 10.00, 10.01, 20.00, 20.01, 30.00 and 30.01: a decline of exactly 10.00
is excluded from the report, 10.01 is Moderate, 20.00 is Moderate, 20.01 is
High, 30.00 is High and 30.01 is Critical. -/
theorem severity_boundary_bands :
    calculate_yield_decline (bTab 9000) 5 = [] ∧
    calculate_yield_decline (bTab 8999) 5 =
      [⟨"C", "S", 1001 / 100, 10000, 8999, Severity.Moderate⟩] ∧
    calculate_yield_decline (bTab 8000) 5 =
      [⟨"C", "S", 20, 10000, 8000, Severity.Moderate⟩] ∧
    calculate_yield_decline (bTab 7999) 5 =
      [⟨"C", "S", 2001 / 100, 10000, 7999, Severity.High⟩] ∧
    calculate_yield_decline (bTab 7000) 5 =
      [⟨"C", "S", 30, 10000, 7000, Severity.High⟩] ∧
    calculate_yield_decline (bTab 6999) 5 =
      [⟨"C", "S", 3001 / 100, 10000, 6999, Severity.Critical⟩] := by decide

unseal Rat.mul Rat.inv Rat.add Rat.sub in
/-- C3 (counterexample): on the Rice/Gujarat 2016-2020 table the report does
not consist of one record with decline percentage 26.67 and severity High. -/
theorem rice_gujarat_not_as_claimed :
    (calculate_yield_decline riceTable 5).map
        (fun r => (r.Decline_Percentage, r.Severity)) ≠
      [((2667 / 100 : ℚ), Severity.High)] := by decide

unseal Rat.mul Rat.inv Rat.add Rat.sub in
/-- C3 (amended): on the Rice/Gujarat 2016-2020 table with a 5-year window,
`calculate_yield_decline` emits exactly one record, with decline percentage
30.16 (early mean 2.1 over the years `≤ start_year + 2 = 2017`, recent mean
1.47 after rounding over the years `≥ 2018`) and severity Critical. -/
theorem rice_gujarat_scenario :
    calculate_yield_decline riceTable 5 =
      [⟨"Rice", "Gujarat", 754 / 25, 21 / 10, 147 / 100, Severity.Critical⟩] := by decide

/-- C7: on the empty table, `calculate_yield_decline` returns the empty report
for every window length, and (being a total function) raises nothing. -/
theorem empty_table_empty_report : ∀ years : ℤ, calculate_yield_decline [] years = [] :=
  fun _ => rfl

unseal Rat.mul Rat.inv Rat.add Rat.sub in
/-- C6 (counterexample): called with the negative window `-3` on a nonempty
table, `calculate_yield_decline` returns a (here empty) report; no
invalid-argument signal is raised anywhere in the function. -/
theorem negative_window_returns_report : calculate_yield_decline c6Table (-3) = [] := by
  decide

/-- C6 (amended): a negative `window_years` is accepted: the period window
`start_year ≤ Year ≤ current_year` is empty because `start_year > current_year`,
so `calculate_yield_decline` returns the empty report instead of failing. -/
theorem negative_window_empty_report (df : List Row) (years : ℤ) (hy : years < 0) :
    calculate_yield_decline df years = [] := by
  have hdl : declineList df years = [] := by
    rw [declineList]
    cases h : maxYear df with
    | none => rfl
    | some cy =>
      have hper : periodOf df (cy - years) cy = [] := by
        rw [periodOf, List.filter_eq_nil_iff]
        intro r hr
        simp only [Bool.and_eq_true, decide_eq_true_eq, not_and]
        intro h1 h2
        omega
      simp [hper, listProd, unique]
  rw [calculate_yield_decline, hdl]
  rfl

/-- C6 (witness): the amended claim applied to a concrete table and the
negative window `-1`. -/
theorem negative_window_empty_report_witness : calculate_yield_decline c6Table (-1) = [] :=
  negative_window_empty_report c6Table (-1) (by norm_num)

/-! ## Helper lemmas about the sort and the report -/

theorem mem_calculate_yield_decline {df : List Row} {years : ℤ} {r : DeclineRecord} :
    r ∈ calculate_yield_decline df years ↔ r ∈ declineList df years := by
  simp only [calculate_yield_decline]
  split
  · rename_i h
    rw [List.isEmpty_iff] at h
    simp [h]
  · simp [sortDesc]

theorem evalPair_crop_state {period : List Row} {start_year current_year : ℤ}
    {c s : String} {r : DeclineRecord}
    (h : evalPair period start_year current_year c s = some r) :
    r.Crop = c ∧ r.State = s := by
  simp only [evalPair] at h
  split at h
  · exact Option.noConfusion h
  · split at h
    · split at h
      · split at h
        · obtain rfl := Option.some.inj h
          exact ⟨rfl, rfl⟩
        · exact Option.noConfusion h
      · exact Option.noConfusion h
    · exact Option.noConfusion h

theorem mem_declineList {df : List Row} {years : ℤ} {r : DeclineRecord}
    (h : r ∈ declineList df years) :
    ∃ current_year, maxYear df = some current_year ∧
      evalPair (periodOf df (current_year - years) current_year)
        (current_year - years) current_year r.Crop r.State = some r := by
  cases hm : maxYear df with
  | none => simp only [declineList, hm] at h; cases h
  | some cy =>
    simp only [declineList, hm] at h
    obtain ⟨cs, hcs, hev⟩ := List.mem_filterMap.1 h
    obtain ⟨hc, hs⟩ := evalPair_crop_state hev
    exact ⟨cy, rfl, by rw [hc, hs]; exact hev⟩

theorem evalPair_none_of_few_yields {period : List Row} {start_year current_year : ℤ}
    {c s : String}
    (h : ((pairSubset period c s).filterMap (fun r => r.Yield)).length ≤ 1) :
    evalPair period start_year current_year c s = none := by
  have hsub : ∀ p : Row → Bool,
      List.Sublist (((pairSubset period c s).filter p).filterMap (fun r => r.Yield))
        ((pairSubset period c s).filterMap (fun r => r.Yield)) :=
    fun p => List.Sublist.filterMap _ (List.filter_sublist _)
  simp only [evalPair]
  split
  · rfl
  · cases hys : (pairSubset period c s).filterMap (fun r => r.Yield) with
    | nil =>
      have hnone : ∀ p : Row → Bool,
          meanYield ((pairSubset period c s).filter p) = none := by
        intro p
        have := hys ▸ hsub p
        rw [List.sublist_nil] at this
        simp [meanYield, this]
      split
      · rename_i e rc he hrc
        rw [hnone] at he
        exact Option.noConfusion he
      · rfl
    | cons w t =>
      have ht : t = [] := by
        rw [hys] at h
        simp only [List.length_cons] at h
        have h0 : t.length = 0 := by omega
        exact List.length_eq_zero.1 h0
      subst ht
      have key : ∀ p : Row → Bool,
          meanYield ((pairSubset period c s).filter p) = none ∨
          meanYield ((pairSubset period c s).filter p) = some w := by
        intro p
        have hl := hys ▸ hsub p
        rcases List.sublist_singleton.1 hl with h0 | h1
        · left
          simp [meanYield, h0]
        · right
          simp [meanYield, h1]
      split
      · rename_i e rc he hrc
        rcases key (fun r => decide (r.Year ≤ start_year + 2)) with h1 | h1 <;>
          rw [h1] at he
        · exact Option.noConfusion he
        rcases key (fun r => decide (current_year - 2 ≤ r.Year)) with h2 | h2 <;>
          rw [h2] at hrc
        · exact Option.noConfusion hrc
        obtain rfl := Option.some.inj he
        obtain rfl := Option.some.inj hrc
        have hz : (w - w) / w * 100 = 0 := by
          rw [sub_self, zero_div, zero_mul]
        rw [hz]
        rw [if_neg (by norm_num : ¬ (10 : ℚ) < 0)]
        rw [ite_self]
      · rfl

/-! ## Claims about the sort order (C2) and the observation gate (C10) -/

/-- C10 (counterexample): no pair whose period-window rows contain exactly one
defined yield ever appears in the report — in particular no such pair with
exactly 2 rows in the window does — because both window means are then drawn
from the same single value, so the decline percentage is 0 or a mean is
undefined.  This is the negation of the claimed existence. -/
theorem report_needs_two_defined_yields :
    ¬ ∃ (df : List Row) (years : ℤ) (r : DeclineRecord),
        r ∈ calculate_yield_decline df years ∧
        (pairRows df years r.Crop r.State).length = 2 ∧
        ((pairRows df years r.Crop r.State).filterMap (fun row => row.Yield)).length = 1 := by
  rintro ⟨df, years, r, hmem, hlen, hy⟩
  obtain ⟨cy, hcy, hev⟩ := mem_declineList (mem_calculate_yield_decline.1 hmem)
  have hrows : pairRows df years r.Crop r.State =
      pairSubset (periodOf df (cy - years) cy) r.Crop r.State := by
    simp only [pairRows, hcy]
  rw [hrows] at hy
  rw [evalPair_none_of_few_yields hy.le] at hev
  exact Option.noConfusion hev

/-- C10 (amended): the minimum-observation gate depends only on the number of
rows a pair has in the period window — a pair with exactly 2 rows of which
only one has a defined yield is not skipped by the gate (`len(subset) < 2` is
false) — but such a pair never appears in the report: it is excluded further
down because both means come from its single defined yield. -/
theorem gate_counts_rows_but_pair_excluded (df : List Row) (years : ℤ) (c s : String)
    (hlen : (pairRows df years c s).length = 2)
    (hy : ((pairRows df years c s).filterMap (fun row => row.Yield)).length = 1) :
    ¬ (pairRows df years c s).length < 2 ∧
    ∀ r ∈ calculate_yield_decline df years, ¬ (r.Crop = c ∧ r.State = s) := by
  refine ⟨by omega, ?_⟩
  intro r hmem hcs
  obtain ⟨hc, hs⟩ := hcs
  obtain ⟨cy, hcy, hev⟩ := mem_declineList (mem_calculate_yield_decline.1 hmem)
  rw [hc, hs] at hev
  have hrows : pairRows df years c s =
      pairSubset (periodOf df (cy - years) cy) c s := by
    simp only [pairRows, hcy]
  rw [hrows] at hy
  rw [evalPair_none_of_few_yields hy.le] at hev
  exact Option.noConfusion hev

unseal Rat.mul Rat.inv Rat.add Rat.sub in
/-- C10 (witness): the amended claim applied to a concrete pair with 2 window
rows and a single defined yield (window 4, so the head and tail windows
overlap on the defined row). -/
theorem gate_counts_rows_witness :
    ¬ (pairRows oneYieldTable 4 "C" "S").length < 2 ∧
    ∀ r ∈ calculate_yield_decline oneYieldTable 4, ¬ (r.Crop = "C" ∧ r.State = "S") :=
  gate_counts_rows_but_pair_excluded oneYieldTable 4 "C" "S" (by decide) (by decide)

/-! ## Helper lemmas for the grouped-pass refinement (C9) -/

end App
